import Mathlib

/-!
Verification of the parameter-reconciliation and temporal-alignment logic of
the valuecell_kronos repository, as a shallow embedding of:

* `src/python/valuecell/server/api/routers/kronos.py` — the `predict`
  handler: parameter reconciliation (lines 299-331), future-timestamp
  generation (lines 343-358), and the error-envelope control flow;
* `src/python/Kronos/webui/data_downloader.py` — the Yahoo Finance fetch:
  response parsing, row construction, null dropping, sorting, and the
  exception wrapping of the surrounding try/except.

Machine integers are modelled as `Nat`/`Int` (row counts are small;
`int(available * 0.75)` in Python is exact float arithmetic followed by
truncation, which for non-negative `available` equals `available * 3 / 4`
in natural-number division). Prices are modelled as `ℚ`. Timestamps are
modelled at day granularity as `Int` day numbers with the Unix epoch
alignment: day 0 = Thursday 1970-01-01, so a day `d` is a Saturday iff
`d % 7 = 2` and a Sunday iff `d % 7 = 3`.
-/

namespace KronosSpec

/-! Section: parameter reconciler (kronos.py, predict, lines 299-331). -/

/-- Constant `min_lookback = 100` (kronos.py line 308). -/
def minLookback : Nat := 100

/-- Constant `min_pred_len = 30` (kronos.py line 309). -/
def minPredLen : Nat := 30

/-- The error returned when history is too short: the code builds the
message "Insufficient data: need at least {min_lookback + min_pred_len},
got {available}", i.e. it reports the required count and the available
count (kronos.py line 319). -/
inductive ReconcileError where
  | insufficientHistory (required : Nat) (available : Nat)
deriving DecidableEq, Repr

/-- The parameter auto-adjustment of `predict` (kronos.py lines 299-331):

```
total_needed = request.lookback + request.pred_len
actual_lookback = request.lookback
actual_pred_len = request.pred_len
if len(df) < total_needed:
    available = len(df)
    if available < min_lookback + min_pred_len:
        return error envelope "Insufficient data: need at least ..., got ..."
    if available >= request.lookback + min_pred_len:
        actual_pred_len = available - request.lookback
    else:
        actual_lookback = min(request.lookback, int(available * 0.75))
        actual_pred_len = available - actual_lookback
```

Here `int(available * 0.75)` is modelled by `available * 3 / 4` (exact:
0.75 is dyadic, the float product is exact for realistic row counts, and
Python's `int` truncates toward zero, which is floor on non-negatives). -/
def reconcile (lookback pred_len available : Nat) :
    Except ReconcileError (Nat × Nat) :=
  if available < lookback + pred_len then
    if available < minLookback + minPredLen then
      .error (.insufficientHistory (minLookback + minPredLen) available)
    else if lookback + minPredLen ≤ available then
      .ok (lookback, available - lookback)
    else
      let al := min lookback (available * 3 / 4)
      .ok (al, available - al)
  else
    .ok (lookback, pred_len)

/-! Section: future timestamp generator (kronos.py, predict, lines
343-358).

Timestamps are `Int` day numbers, epoch-aligned: day 0 = Thursday
1970-01-01, so `d % 7 = 2` means Saturday and `d % 7 = 3` means Sunday.
`pd.date_range(start=last_ts + avg_diff, periods=k, freq='B')` emits
exactly `k` dates on the business-day frequency: the start is rolled
forward to the next business day when it falls on a weekend, and each
subsequent date is the next business day. The pandas median of a list
with an even number of elements is the average of the two middle elements
of the sorted list; at day granularity the model floors that average,
which yields the same calendar dates for the emitted points (a half-day
offset never crosses a date boundary starting from whole-day bar
timestamps). -/

/-- A day number falls on Monday..Friday (day 0 = Thursday; Saturday has
residue 2 and Sunday residue 3 modulo 7). -/
def IsBusinessDay (d : Int) : Prop := d % 7 ≠ 2 ∧ d % 7 ≠ 3

instance (d : Int) : Decidable (IsBusinessDay d) := by
  unfold IsBusinessDay
  infer_instance

/-- Roll a day forward to the next business day: Saturday jumps to Monday
(+2), Sunday to Monday (+1), and week days stay put. This is how the 'B'
frequency of `pd.date_range` anchors a start that is off-frequency. -/
def rollForward (d : Int) : Int :=
  if d % 7 = 2 then d + 2 else if d % 7 = 3 then d + 1 else d

/-- The business day after `d`: step one day, then roll over the weekend. -/
def nextBusinessDay (d : Int) : Int := rollForward (d + 1)

/-- Emit `k` consecutive business days starting at the business day `d`. -/
def businessDaysFrom : Nat → Int → List Int
  | 0, _ => []
  | k + 1, d => d :: businessDaysFrom k (nextBusinessDay d)

/-- Model of `pd.date_range(start, periods=k, freq='B')`: anchor the
start on the business-day frequency, then emit `k` consecutive business
days. -/
def bdayRange (start : Int) (k : Nat) : List Int :=
  businessDaysFrom k (rollForward start)

/-- Consecutive differences of a timestamp list, as in
`x_timestamp.diff().dropna()` (kronos.py line 347). -/
def consecutiveDiffs : List Int → List Int
  | a :: b :: rest => (b - a) :: consecutiveDiffs (b :: rest)
  | _ => []

/-- The pandas median of a list: middle element of the sorted list for odd
length, (floored) average of the two middle elements for even length. -/
def medianOf (l : List Int) : Int :=
  let s := List.mergeSort l (fun a b => a ≤ b)
  if s.length % 2 = 1 then s.getD (s.length / 2) 0
  else (s.getD (s.length / 2 - 1) 0 + s.getD (s.length / 2) 0) / 2

/-- Model of `avg_diff` (kronos.py lines 346-350): the median of the
consecutive timestamp differences when at least 2 historical timestamps
are present, else `pd.Timedelta(days=1)`. -/
def medianGap (hist : List Int) : Int :=
  if 2 ≤ hist.length then medianOf (consecutiveDiffs hist) else 1

/-- Model of `last_ts = x_timestamp.iloc[-1]` (kronos.py line 344);
defaulted to 0 on an empty history (the code always has a non-empty
window here). -/
def lastTs (hist : List Int) : Int := hist.getLastD 0

/-- The future timestamps fed to the predictor (kronos.py lines 353-357):
`pd.date_range(start=last_ts + avg_diff, periods=k, freq='B')`. -/
def genFutureTimestamps (hist : List Int) (k : Nat) : List Int :=
  bdayRange (lastTs hist + medianGap hist) k

/-! Section: Yahoo Finance downloader
(data_downloader.py, download_yahoo_finance_data, lines 75-141). -/

/-- The quote arrays of `result["indicators"]["quote"][0]`, each read with
`quote.get(col, [])` so a missing array is the empty list; individual
entries can be null (`none`). -/
structure QuoteBlock where
  opens : List (Option ℚ)
  highs : List (Option ℚ)
  lows : List (Option ℚ)
  closes : List (Option ℚ)
  volumes : List (Option ℚ)
deriving DecidableEq, Repr

/-- One entry of `data["chart"]["result"]`: its timestamp array (read
with `result.get("timestamp", [])`, so `none` models a missing key) and
its quote block (`none` models a missing `indicators`/`quote` path, whose
access raises and falls into the generic handler). -/
structure ChartResult where
  timestamp : Option (List Int)
  quote : Option QuoteBlock
deriving DecidableEq, Repr

/-- The parsed JSON body: `none` models "chart" or "result" missing. -/
structure YahooChartData where
  chartResult : Option (List ChartResult)
deriving DecidableEq, Repr

/-- Errors of the fetch path. The two ValueErrors raised inside the try
block (lines 82 and 89) are `dataUnavailable` and `noHistory`;
`otherFailure` stands for any other exception raised inside the try block
(missing indicators path, mismatched array lengths in the DataFrame
constructor, file I/O); `connectionFailure` is the ConnectionError raised
for a RequestException (line 139); and `fetchFailure cause` is the
generic `Exception("下载数据失败: " + str(cause))` re-raised by the
catch-all handler (line 141), whose message embeds the wrapped cause. -/
inductive FetchError where
  | dataUnavailable : FetchError
  | noHistory : FetchError
  | otherFailure : FetchError
  | connectionFailure : FetchError
  | fetchFailure (cause : FetchError) : FetchError
deriving DecidableEq, Repr

/-- One row of the DataFrame built at lines 95-106: a non-null timestamp
plus possibly-null open/high/low/close/volume and the derived amount. -/
structure RawRow where
  ts : Int
  opn : Option ℚ
  high : Option ℚ
  low : Option ℚ
  close : Option ℚ
  volume : Option ℚ
  amount : Option ℚ
deriving DecidableEq, Repr

/-- The derived traded value `volume * (open + close) / 2` (line 106);
pandas propagates NaN, so the result is null when any operand is. -/
def amountOf (o c v : Option ℚ) : Option ℚ :=
  match v, o, c with
  | some v, some o, some c => some (v * (o + c) / 2)
  | _, _, _ => none

/-- A row with no null field, as kept by `df.dropna()` (line 109). -/
def noNull (r : RawRow) : Bool :=
  r.opn.isSome && r.high.isSome && r.low.isSome && r.close.isSome &&
    r.volume.isSome && r.amount.isSome

/-- Comparison used to sort rows by timestamp (`df.sort_values`,
line 112). -/
def tsLe (a b : RawRow) : Bool := decide (a.ts ≤ b.ts)

/-- Elementwise row construction from the parallel column arrays, with
the derived amount column of line 106. -/
def buildRows : List Int → List (Option ℚ) → List (Option ℚ) →
    List (Option ℚ) → List (Option ℚ) → List (Option ℚ) → List RawRow
  | t :: ts, o :: os, h :: hs, l :: ls, c :: cs, v :: vs =>
    ⟨t, o, h, l, c, v, amountOf o c v⟩ :: buildRows ts os hs ls cs vs
  | _, _, _, _, _, _ => []

/-- The DataFrame construction of lines 95-106: one row per timestamp
from the parallel arrays, plus the derived amount column. The pandas
constructor requires all columns to have the same length and raises
otherwise (that exception lands in the generic handler). -/
def buildFrame (t : List Int) (q : QuoteBlock) :
    Except FetchError (List RawRow) :=
  if q.opens.length = t.length ∧ q.highs.length = t.length ∧
      q.lows.length = t.length ∧ q.closes.length = t.length ∧
      q.volumes.length = t.length then
    .ok (buildRows t q.opens q.highs q.lows q.closes q.volumes)
  else
    .error .otherFailure

/-- The body of the try block (lines 81-112): validate the nested result
array (else `dataUnavailable`), validate the timestamp array (else
`noHistory`), access the quote block (a missing path raises into the
generic handler), build the frame, drop rows with any null, and sort
ascending by timestamp. The code performs no deduplication. -/
def parseChartInner (data : YahooChartData) :
    Except FetchError (List RawRow) :=
  match data.chartResult with
  | none => .error .dataUnavailable
  | some [] => .error .dataUnavailable
  | some (result :: _) =>
    if (result.timestamp.getD []).isEmpty then .error .noHistory
    else
      match result.quote with
      | none => .error .otherFailure
      | some q =>
        match buildFrame (result.timestamp.getD []) q with
        | .error e => .error e
        | .ok rows => .ok (List.mergeSort (rows.filter noNull) tsLe)

/-- The whole fetch (lines 75-141): a network-level failure becomes
`connectionFailure`; any error raised by the parse body is re-wrapped by
the catch-all `except Exception` into the generic `fetchFailure`. -/
def downloadResult (net : Except Unit YahooChartData) :
    Except FetchError (List RawRow) :=
  match net with
  | .error _ => .error .connectionFailure
  | .ok data =>
    match parseChartInner data with
    | .ok rows => .ok rows
    | .error e => .error (.fetchFailure e)

/-- Concrete quote block used by the downloader theorems below. -/
def sampleQuote : QuoteBlock :=
  ⟨[some 1, some 3], [some 5, some 7], [some 0, some 2],
    [some 3, some 5], [some 2, some 4]⟩

/-- Concrete response whose timestamp array has a duplicate entry. -/
def dupData : YahooChartData :=
  ⟨some [⟨some [5, 5], some sampleQuote⟩]⟩

/-- Concrete response with unsorted timestamps and full quote data. -/
def cleanData : YahooChartData :=
  ⟨some [⟨some [3, 1], some sampleQuote⟩]⟩

/-- The rows the fetch produces for `cleanData`: both rows survive the
null drop and they come out sorted by timestamp. -/
def cleanRows : List RawRow :=
  [⟨1, some 3, some 7, some 2, some 5, some 4, some 16⟩,
    ⟨3, some 1, some 5, some 0, some 3, some 2, some 4⟩]

/-- Concrete chart result whose timestamp array is present but empty. -/
def emptyTsResult : ChartResult := ⟨some [], some sampleQuote⟩

/-- Concrete response whose timestamp array is empty. -/
def emptyTsData : YahooChartData := ⟨some [emptyTsResult]⟩

/-! Section: the predict handler's error envelope
(kronos.py, predict, lines 221-428). -/

/-- The request fields that the error-envelope control flow depends on
(ticker, lookback, pred_len; kronos.py lines 76-84). -/
structure PredictRequest where
  ticker : String
  lookback : Nat
  pred_len : Nat

/-- The environment of one predict call: the module-level availability
flag, the global predictor state, and the outcomes of the three fallible
external steps. `loadResult` is the model auto-load try (lines 245-252);
`fetchResult` is the yfinance download plus the data preparation before
the length check, producing `len(df)` (lines 267-297); `predictorResult`
covers the data preparation after reconciliation, the external predictor
call, and result assembly, producing the number of returned points
(lines 334-413). An `Except.error` carries the exception's message. -/
structure PredictEnv where
  modelAvailable : Bool
  predictorLoaded : Bool
  keyMatches : Bool
  loadResult : Except String Unit
  fetchResult : Except String Nat
  predictorResult : Except String Nat

/-- The success flag and message of the response envelope
(`PredictionResponse.success` / `.message`). -/
structure Envelope where
  success : Bool
  message : String

/-- The error-envelope control flow of `predict` (lines 221-428): every
failure — library unavailable, model load failure, fetch exception, empty
data, insufficient history, or any exception from preparation/prediction
— is caught and returned as a `success = false` envelope with a message;
the function is total, so no exception propagates to the transport
layer. The model is loaded only when no predictor is resident or the
resident key differs from the requested one (line 244). -/
def predict (env : PredictEnv) (req : PredictRequest) : Envelope :=
  if env.modelAvailable = false then
    ⟨false, "Kronos model library not available"⟩
  else
    match (if env.predictorLoaded && env.keyMatches then Except.ok ()
           else env.loadResult) with
    | .error e => ⟨false, "Failed to load model: " ++ e⟩
    | .ok _ =>
      match env.fetchResult with
      | .error e => ⟨false, "Prediction failed: " ++ e⟩
      | .ok available =>
        if available = 0 then
          ⟨false, "No data available for ticker: " ++ req.ticker⟩
        else
          match reconcile req.lookback req.pred_len available with
          | .error (.insufficientHistory required got) =>
            ⟨false, "Insufficient data: need at least " ++
              toString required ++ ", got " ++ toString got⟩
          | .ok _ =>
            match env.predictorResult with
            | .error e => ⟨false, "Prediction failed: " ++ e⟩
            | .ok n =>
              ⟨true, "Prediction completed with " ++ toString n ++ " points"⟩

end KronosSpec

namespace KronosSpec

/-! Section: helper lemmas. -/

theorem rollForward_isBusinessDay (d : Int) :
    IsBusinessDay (rollForward d) := by
  unfold IsBusinessDay rollForward
  split
  · constructor <;> omega
  · split
    · constructor <;> omega
    · constructor <;> omega

theorem le_rollForward (d : Int) : d ≤ rollForward d := by
  unfold rollForward
  split
  · omega
  · split <;> omega

theorem rollForward_eq_of_businessDay (d : Int) (h : IsBusinessDay d) :
    rollForward d = d := by
  unfold IsBusinessDay at h
  unfold rollForward
  rw [if_neg h.1, if_neg h.2]

theorem lt_nextBusinessDay (d : Int) : d < nextBusinessDay d := by
  unfold nextBusinessDay
  have h := le_rollForward (d + 1)
  omega

theorem businessDaysFrom_length (k : Nat) (d : Int) :
    (businessDaysFrom k d).length = k := by
  induction k generalizing d with
  | zero => rfl
  | succ n ih => simp [businessDaysFrom, ih]

theorem businessDaysFrom_chain (k : Nat) (d : Int) :
    (businessDaysFrom k d).Chain' (· < ·) := by
  induction k generalizing d with
  | zero => simp [businessDaysFrom]
  | succ n ih =>
    cases n with
    | zero => simp [businessDaysFrom]
    | succ m =>
      refine List.Chain'.cons ?_ (ih (nextBusinessDay d))
      exact lt_nextBusinessDay d

theorem businessDaysFrom_all_business (k : Nat) (d : Int)
    (hd : IsBusinessDay d) :
    ∀ t ∈ businessDaysFrom k d, IsBusinessDay t := by
  induction k generalizing d with
  | zero => simp [businessDaysFrom]
  | succ n ih =>
    intro t ht
    simp only [businessDaysFrom, List.mem_cons] at ht
    rcases ht with rfl | ht
    · exact hd
    · exact ih (nextBusinessDay d) (rollForward_isBusinessDay (d + 1)) t ht

theorem string_append_ne_empty (s t : String) (hs : s.length ≠ 0) :
    s ++ t ≠ "" := by
  intro h
  have h2 := congrArg String.length h
  rw [String.length_append] at h2
  simp at h2
  exact hs h2.1

theorem tsLe_trans (a b c : RawRow)
    (h1 : tsLe a b = true) (h2 : tsLe b c = true) : tsLe a c = true := by
  unfold tsLe at h1 h2 ⊢
  simp only [decide_eq_true_eq] at h1 h2 ⊢
  omega

theorem tsLe_total (a b : RawRow) : (tsLe a b || tsLe b a) = true := by
  unfold tsLe
  simp only [Bool.or_eq_true, decide_eq_true_eq]
  omega

theorem sortedFilter_props (l : List RawRow) :
    (∀ r ∈ List.mergeSort (l.filter noNull) tsLe, noNull r = true) ∧
      ((List.mergeSort (l.filter noNull) tsLe).map RawRow.ts).Sorted
        (· ≤ ·) := by
  constructor
  · intro r hr
    rw [List.mem_mergeSort] at hr
    exact List.of_mem_filter hr
  · have hs := List.sorted_mergeSort tsLe_trans tsLe_total
      (l.filter noNull)
    have hs' : List.Pairwise (fun a b : RawRow => a.ts ≤ b.ts)
        (List.mergeSort (l.filter noNull) tsLe) := by
      refine hs.imp ?_
      intro a b hab
      unfold tsLe at hab
      simpa using hab
    exact List.pairwise_map.mpr hs'

theorem parseChartInner_ok_props (data : YahooChartData)
    (rows : List RawRow) (h : parseChartInner data = .ok rows) :
    (∀ r ∈ rows, noNull r = true) ∧
      (rows.map RawRow.ts).Sorted (· ≤ ·) := by
  unfold parseChartInner at h
  split at h
  · simp at h
  · simp at h
  · split at h
    · simp at h
    · split at h
      · simp at h
      · split at h
        · simp at h
        · rename_i rows0 heq
          simp only [Except.ok.injEq] at h
          subst h
          exact sortedFilter_props rows0

/-! Section: the claims. -/

/-- C1: when the available history covers the requested lookback plus the
requested prediction length, the reconciler leaves both values unchanged. -/
theorem reconcile_enough_rows_unchanged
    (lookback pred_len available : Nat)
    (h : lookback + pred_len ≤ available) :
    reconcile lookback pred_len available = .ok (lookback, pred_len) := by
  unfold reconcile
  rw [if_neg (by omega)]

/-- Witness for C1 at available = 600, lookback = 400, pred_len = 120. -/
theorem reconcile_enough_rows_unchanged_witness :
    400 + 120 ≤ 600 ∧ reconcile 400 120 600 = .ok (400, 120) :=
  ⟨by decide, reconcile_enough_rows_unchanged 400 120 600 (by decide)⟩

/-- C2: when the history is shorter than requested and also shorter than
`min_lookback + min_pred_len = 130`, the reconciler fails with the
insufficient-history error reporting the required count (130) and the
available count, and no adjusted parameters are produced. -/
theorem reconcile_insufficient_history
    (lookback pred_len available : Nat)
    (h1 : available < lookback + pred_len)
    (h2 : available < 130) :
    reconcile lookback pred_len available =
      .error (.insufficientHistory 130 available) := by
  unfold reconcile minLookback minPredLen
  rw [if_pos h1, if_pos (by omega)]

/-- Witness for C2 at the claim's instance: available = 50,
lookback = 100, pred_len = 30 fails reporting 130 required, 50 available. -/
theorem reconcile_insufficient_history_witness :
    (50 < 100 + 30 ∧ 50 < 130) ∧
      reconcile 100 30 50 = .error (.insufficientHistory 130 50) :=
  ⟨⟨by decide, by decide⟩,
    reconcile_insufficient_history 100 30 50 (by decide) (by decide)⟩

/-- C3: when the history is shorter than requested but still covers the
requested lookback plus the minimum prediction length (30), the reconciler
keeps the requested lookback and shrinks the prediction length to the
remaining rows. The request bound `lookback ≥ 100` comes from the pydantic
field constraint `ge=100` on `lookback` (kronos.py line 80). -/
theorem reconcile_keep_lookback
    (lookback pred_len available : Nat)
    (hlb : 100 ≤ lookback)
    (h1 : available < lookback + pred_len)
    (h2 : lookback + 30 ≤ available) :
    reconcile lookback pred_len available =
      .ok (lookback, available - lookback) := by
  unfold reconcile minLookback minPredLen
  rw [if_pos h1, if_neg (by omega), if_pos (by omega)]

/-- Witness for C3 at the claim's instance: available = 450,
lookback = 400, pred_len = 120 yields (400, 50). -/
theorem reconcile_keep_lookback_witness :
    (100 ≤ 400 ∧ 450 < 400 + 120 ∧ 400 + 30 ≤ 450) ∧
      reconcile 400 120 450 = .ok (400, 50) :=
  ⟨⟨by decide, by decide, by decide⟩,
    reconcile_keep_lookback 400 120 450 (by decide) (by decide) (by decide)⟩

/-- C4: in the scarce branch (at least 130 rows but fewer than requested
lookback plus 30, and fewer than requested lookback plus requested
prediction length) the reconciler takes
`actual_lookback = min(lookback, floor(available * 0.75))` and gives the
rest to the prediction length. -/
theorem reconcile_scarce_branch
    (lookback pred_len available : Nat)
    (h1 : available < lookback + pred_len)
    (h2 : 130 ≤ available)
    (h3 : available < lookback + 30) :
    reconcile lookback pred_len available =
      .ok (min lookback (available * 3 / 4),
           available - min lookback (available * 3 / 4)) := by
  unfold reconcile minLookback minPredLen
  rw [if_pos h1, if_neg (by omega), if_neg (by omega)]

/-- Witness for C4 at the claim's instance: available = 150,
lookback = 400, pred_len = 120 yields (112, 38). -/
theorem reconcile_scarce_branch_witness :
    (150 < 400 + 120 ∧ 130 ≤ 150 ∧ 150 < 400 + 30) ∧
      reconcile 400 120 150 = .ok (112, 38) :=
  ⟨⟨by decide, by decide, by decide⟩, by
    have h := reconcile_scarce_branch 400 120 150
      (by decide) (by decide) (by decide)
    simpa using h⟩

/-- C10: with available_rows = 130 and the in-bounds request
lookback = 400 (100 ≤ 400 ≤ 512), pred_len = 120 (30 ≤ 120 ≤ 180),
reconciliation succeeds — no insufficient-history error — yet the produced
lookback is floor(130 * 0.75) = 97, strictly below the min_lookback of 100
used in the sufficiency check. -/
theorem reconcile_can_go_below_min_lookback :
    (100 ≤ 400 ∧ 400 ≤ 512 ∧ 30 ≤ 120 ∧ 120 ≤ 180) ∧
      reconcile 400 120 130 = .ok (97, 33) ∧ 97 < minLookback := by
  refine ⟨⟨by decide, by decide, by decide, by decide⟩, ?_, by decide⟩
  rfl

/-- C5: with at least 2 historical timestamps and a requested count
k ≥ 1, the future-timestamp generator returns exactly k timestamps that
are strictly increasing and fall only on business days. -/
theorem genFutureTimestamps_spec (hist : List Int) (k : Nat)
    (hh : 2 ≤ hist.length) (hk : 1 ≤ k) :
    (genFutureTimestamps hist k).length = k ∧
      (genFutureTimestamps hist k).Chain' (· < ·) ∧
      ∀ t ∈ genFutureTimestamps hist k, IsBusinessDay t := by
  unfold genFutureTimestamps bdayRange
  exact ⟨businessDaysFrom_length _ _, businessDaysFrom_chain _ _,
    businessDaysFrom_all_business _ _ (rollForward_isBusinessDay _)⟩

/-- Witness for C5 at hist = [0, 1] (Thursday, Friday) and k = 1. -/
theorem genFutureTimestamps_spec_witness :
    (2 ≤ ([0, 1] : List Int).length ∧ 1 ≤ 1) ∧
      ((genFutureTimestamps [0, 1] 1).length = 1 ∧
        (genFutureTimestamps [0, 1] 1).Chain' (· < ·) ∧
        ∀ t ∈ genFutureTimestamps [0, 1] 1, IsBusinessDay t) :=
  ⟨⟨by decide, by decide⟩,
    genFutureTimestamps_spec [0, 1] 1 (by decide) (by decide)⟩

/-- Counterexample to C6: for the history [0, 1] (Thursday, Friday) the
median gap is 1 day, so last + gap = 2 is a Saturday; the generator's
first output is day 4 (Monday), not last + gap. -/
theorem first_future_timestamp_counterexample :
    lastTs [0, 1] + medianGap [0, 1] = 2 ∧
      genFutureTimestamps [0, 1] 1 = [4] ∧
      (genFutureTimestamps [0, 1] 1).head? ≠
        some (lastTs [0, 1] + medianGap [0, 1]) := by
  refine ⟨?_, ?_, ?_⟩
  · simp [lastTs, medianGap, medianOf, consecutiveDiffs, List.mergeSort]
  · simp [genFutureTimestamps, lastTs, medianGap, medianOf,
      consecutiveDiffs, List.mergeSort, bdayRange, businessDaysFrom,
      rollForward]
  · simp [genFutureTimestamps, lastTs, medianGap, medianOf,
      consecutiveDiffs, List.mergeSort, bdayRange, businessDaysFrom,
      rollForward]

/-- C6 amended: the first generated future timestamp is the last
historical timestamp plus the median of consecutive differences (1-day
gap assumed below 2 timestamps), rolled forward to the next business day;
in particular it equals last + gap exactly when last + gap already falls
on a business day. -/
theorem first_future_timestamp_amended (hist : List Int) (k : Nat)
    (hk : 1 ≤ k) :
    (genFutureTimestamps hist k).head? =
        some (rollForward (lastTs hist + medianGap hist)) ∧
      (IsBusinessDay (lastTs hist + medianGap hist) →
        (genFutureTimestamps hist k).head? =
          some (lastTs hist + medianGap hist)) := by
  unfold genFutureTimestamps bdayRange
  cases k with
  | zero => omega
  | succ n =>
    constructor
    · rfl
    · intro hb
      simp [businessDaysFrom, rollForward_eq_of_businessDay _ hb]

/-- Witness for the amended C6 at hist = [0, 1], k = 1: the head is
day 4 = rollForward 2. -/
theorem first_future_timestamp_amended_witness :
    1 ≤ 1 ∧
      ((genFutureTimestamps [0, 1] 1).head? =
          some (rollForward (lastTs [0, 1] + medianGap [0, 1])) ∧
        (IsBusinessDay (lastTs [0, 1] + medianGap [0, 1]) →
          (genFutureTimestamps [0, 1] 1).head? =
            some (lastTs [0, 1] + medianGap [0, 1]))) :=
  ⟨by decide, first_future_timestamp_amended [0, 1] 1 (by decide)⟩

/-- Counterexample to C7: the fetch performs no deduplication by
timestamp — a successfully parsed response with a duplicated timestamp
yields a saved series whose timestamps are [5, 5], which is not strictly
increasing. -/
theorem downloader_timestamps_not_strict :
    (downloadResult (.ok dupData)).map (List.map RawRow.ts) =
        .ok [5, 5] ∧
      ¬ List.Chain' (· < ·) ([5, 5] : List Int) := by
  constructor
  · simp [downloadResult, parseChartInner, dupData, sampleQuote,
      buildFrame, buildRows, amountOf, noNull, tsLe, List.mergeSort,
      Except.map]
  · intro hc
    rw [List.chain'_cons] at hc
    exact absurd hc.1 (by omega)

/-- C7 amended: every series the fetcher successfully produces has had
all rows with any null field dropped (every surviving row is null-free)
and is sorted ascending — non-decreasing, not necessarily strictly
increasing, because no deduplication by timestamp is performed. -/
theorem downloader_rows_nullfree_sorted
    (net : Except Unit YahooChartData) (rows : List RawRow)
    (h : downloadResult net = .ok rows) :
    (∀ r ∈ rows, noNull r = true) ∧
      (rows.map RawRow.ts).Sorted (· ≤ ·) := by
  cases net with
  | error e => simp [downloadResult] at h
  | ok data =>
    cases hpc : parseChartInner data with
    | error e => simp [downloadResult, hpc] at h
    | ok rows0 =>
      have hr : rows0 = rows := by simpa [downloadResult, hpc] using h
      subst hr
      exact parseChartInner_ok_props data rows0 hpc

/-- Witness for the amended C7 at the concrete response `cleanData`,
whose parse succeeds with the rows `cleanRows`. -/
theorem downloader_rows_nullfree_sorted_witness :
    downloadResult (.ok cleanData) = .ok cleanRows ∧
      ((∀ r ∈ cleanRows, noNull r = true) ∧
        (cleanRows.map RawRow.ts).Sorted (· ≤ ·)) := by
  have h : downloadResult (.ok cleanData) = .ok cleanRows := by
    simp [downloadResult, parseChartInner, cleanData, cleanRows,
      sampleQuote, buildFrame, buildRows, amountOf, noNull, tsLe,
      List.mergeSort]
    norm_num
  exact ⟨h, downloader_rows_nullfree_sorted (.ok cleanData) cleanRows h⟩

/-- Counterexample to C8: with an empty remote timestamp array the fetch
does raise the no-history error internally, but the surrounding catch-all
re-wraps it, so the caller receives the generic wrapper
`fetchFailure noHistory`, not the bare typed `noHistory` the claim
asserts. -/
theorem noHistory_wrapped_counterexample :
    downloadResult (.ok emptyTsData) =
        .error (.fetchFailure .noHistory) ∧
      downloadResult (.ok emptyTsData) ≠
        .error FetchError.noHistory := by
  have h1 : downloadResult (.ok emptyTsData) =
      .error (.fetchFailure .noHistory) := rfl
  refine ⟨h1, ?_⟩
  rw [h1]
  intro h
  injection h with h2
  exact absurd h2 (by decide)

/-- C8 amended: when the remote response's timestamp array is empty, the
fetch never returns a series — the parse raises the no-history error,
which the catch-all handler re-wraps, so the caller receives the generic
failure wrapping the no-history cause. -/
theorem noHistory_wrapped (data : YahooChartData) (r : ChartResult)
    (rest : List ChartResult)
    (h1 : data.chartResult = some (r :: rest))
    (h2 : r.timestamp.getD [] = []) :
    downloadResult (.ok data) = .error (.fetchFailure .noHistory) := by
  have hp : parseChartInner data = .error .noHistory := by
    unfold parseChartInner
    rw [h1]
    simp [h2]
  simp [downloadResult, hp]

/-- Witness for the amended C8 at the concrete response `emptyTsData`. -/
theorem noHistory_wrapped_witness :
    (emptyTsData.chartResult = some (emptyTsResult :: []) ∧
        emptyTsResult.timestamp.getD [] = []) ∧
      downloadResult (.ok emptyTsData) =
        .error (.fetchFailure .noHistory) :=
  ⟨⟨rfl, rfl⟩, noHistory_wrapped emptyTsData emptyTsResult [] rfl rfl⟩

/-- C9: the predict handler always returns a response envelope — on any
error (library unavailable, model load failure, fetch failure, empty
data, insufficient history, predictor failure) the envelope has
success = false and a non-empty message; success = true is only possible
when the library was available, the model load succeeded whenever one was
needed, the fetch returned a non-empty frame, reconciliation succeeded,
and the predictor succeeded — so each of the six enumerated error kinds
forces success = false. Being a total function of its environment, the
handler propagates no exception. -/
theorem predict_error_envelope (env : PredictEnv) (req : PredictRequest) :
    ((predict env req).success = false ∧ (predict env req).message ≠ "") ∨
      ((predict env req).success = true ∧ env.modelAvailable = true ∧
        ((env.predictorLoaded && env.keyMatches) = false →
          env.loadResult.isOk = true) ∧
        ∃ available, env.fetchResult = Except.ok available ∧
          available ≠ 0 ∧
          (reconcile req.lookback req.pred_len available).isOk = true ∧
          env.predictorResult.isOk = true) := by
  unfold predict
  split
  · exact Or.inl ⟨rfl, by decide⟩
  · rename_i hma
    split
    · exact Or.inl ⟨rfl, string_append_ne_empty _ _ (by decide)⟩
    · rename_i u hload
      split
      · exact Or.inl ⟨rfl, string_append_ne_empty _ _ (by decide)⟩
      · rename_i available hfetch
        split
        · exact Or.inl ⟨rfl, string_append_ne_empty _ _ (by decide)⟩
        · rename_i h0
          split
          · refine Or.inl ⟨rfl, string_append_ne_empty _ _ ?_⟩
            rw [String.length_append]
            have h5 : (", got " : String).length = 6 := by decide
            omega
          · rename_i p hrec
            split
            · exact Or.inl ⟨rfl, string_append_ne_empty _ _ (by decide)⟩
            · rename_i n hpred
              refine Or.inr ⟨rfl, by simpa using hma, ?_,
                available, hfetch, h0, ?_, ?_⟩
              · intro hcond
                simp only [hcond, Bool.false_eq_true, if_false] at hload
                rw [hload]; rfl
              · rw [hrec]; rfl
              · rw [hpred]; rfl

end KronosSpec
